import Mathlib

/-!
Shallow embedding of the molpal fragment under verification:
  * src/molpal/models/__init__.py      (model / nn / mpn factory dispatch)
  * src/molpal/models/mpnn/evaluate.py (evaluate_predictions / evaluate)

Modelling conventions:
  * Python floats are modelled as rationals (ℚ); the values only ever flow
    through the user-supplied metric function and (in)equality tests against 0,
    so no floating-point behaviour is observable in the claims.
  * Python `None` target entries are `Option.none`; present targets are `some q`.
  * `float('nan')` is used by the source purely as a "no valid score" sentinel,
    so results are an inductive `EvalOut` with a `nan` constructor instead of an
    IEEE NaN.
  * `raise NotImplementedError(msg)` becomes `Except.error msg`.
  * The side channel `info(...)` (logger.info when a logger is configured,
    print otherwise) is modelled by returning the list of emitted messages as a
    second component; where the messages go is I/O outside the embedding.
  * Python list indexing `xs[i]` is modelled with `List.getD`; all claims only
    exercise it in bounds, where the two agree.
-/

namespace Molpal

/-- The model classes constructed by the factory in
src/molpal/models/__init__.py.  The classes themselves (RFModel, GPModel,
NNModel, ..., MPNTwoOutputModel) live outside the fragment; the factory only
chooses which class to instantiate and which conf_method keyword to pass, so an
instance is modelled as the chosen class tagged with the conf_method keyword it
was constructed with (none when no conf_method keyword was passed). -/
inductive ModelInstance where
  | RFModel
  | GPModel
  | NNModel (conf : Option String)
  | NNDropoutModel (conf : Option String)
  | NNEnsembleModel (conf : Option String)
  | NNTwoOutputModel (conf : Option String)
  | MPNModel (conf : Option String)
  | MPNDropoutModel (conf : Option String)
  | MPNTwoOutputModel (conf : Option String)
deriving DecidableEq, Repr

/-- The dict literal in `nn`:
`{'dropout': NNDropoutModel, 'ensemble': NNEnsembleModel,
'twooutput': NNTwoOutputModel, 'mve': NNTwoOutputModel, 'none': NNModel}`. -/
def nnConfClasses : List (String × (Option String → ModelInstance)) :=
  [("dropout", ModelInstance.NNDropoutModel),
   ("ensemble", ModelInstance.NNEnsembleModel),
   ("twooutput", ModelInstance.NNTwoOutputModel),
   ("mve", ModelInstance.NNTwoOutputModel),
   ("none", ModelInstance.NNModel)]

/-- The dict literal in `mpn`:
`{'dropout': MPNDropoutModel, 'twooutput': MPNTwoOutputModel,
'mve': MPNTwoOutputModel, 'none': MPNModel}`. -/
def mpnConfClasses : List (String × (Option String → ModelInstance)) :=
  [("dropout", ModelInstance.MPNDropoutModel),
   ("twooutput", ModelInstance.MPNTwoOutputModel),
   ("mve", ModelInstance.MPNTwoOutputModel),
   ("none", ModelInstance.MPNModel)]

/-- `nn(conf_method=None, **kwargs)` from src/molpal/models/__init__.py:
`conf_method is None` returns `NNModel(**kwargs)`; otherwise the dict is
indexed by `conf_method` and the class called with
`conf_method=conf_method`; a `KeyError` becomes the NotImplementedError. -/
def nn (conf_method : Option String) : Except String ModelInstance :=
  match conf_method with
  | none => Except.ok (ModelInstance.NNModel none)
  | some c =>
      match nnConfClasses.lookup c with
      | some cls => Except.ok (cls (some c))
      | none =>
          Except.error ("Unrecognized NN confidence method: \"" ++ c ++ "\"")

/-- `mpn(conf_method=None, **kwargs)` from src/molpal/models/__init__.py. -/
def mpn (conf_method : Option String) : Except String ModelInstance :=
  match conf_method with
  | none => Except.ok (ModelInstance.MPNModel none)
  | some c =>
      match mpnConfClasses.lookup c with
      | some cls => Except.ok (cls (some c))
      | none =>
          Except.error ("Unrecognized MPN confidence method: \"" ++ c ++ "\"")

/-- `model(model, **kwargs)` from src/molpal/models/__init__.py.  The
conf_method keyword travels in `**kwargs` to `nn`/`mpn`; `rf`/`gp` construct
their class directly. -/
def model (model_key : String) (conf_method : Option String) :
    Except String ModelInstance :=
  if model_key = "rf" then Except.ok ModelInstance.RFModel
  else if model_key = "gp" then Except.ok ModelInstance.GPModel
  else if model_key = "nn" then nn conf_method
  else if model_key = "mpn" then mpn conf_method
  else Except.error ("Unrecognized model: \"" ++ model_key ++ "\"")

/-- One entry of the list returned by `evaluate_predictions`: either a score
produced by the metric function or the `float('nan')` "no valid score"
sentinel. -/
inductive EvalOut where
  | nan
  | score (x : ℚ)
deriving DecidableEq, Repr

/-- The warning emitted when a classification task has degenerate targets. -/
def targetsWarning : String := "Warning: Found a task with targets all 0s or all 1s"

/-- The warning emitted when a classification task has degenerate predictions. -/
def predsWarning : String := "Warning: Found a task with predictions all 0s or all 1s"

/-- The filtering loop of `evaluate_predictions`
(src/molpal/models/mpnn/evaluate.py, lines 31-40).

The source initializes `valid_preds = [[]] * num_tasks` and
`valid_targets = [[]] * num_tasks`: each is a list of `num_tasks` references
to ONE shared empty list, so every `valid_preds[j].append(...)` in the loop

    for j in range(num_tasks):
        for i in range(len(preds)):
            if targets[i][j] is None: continue
            valid_preds[j].append(preds[i][j])
            valid_targets[j].append(targets[i][j])

mutates that single shared list.  We model the pair of shared lists that every
index `j` aliases; after the loop `valid_preds[j]` is this first component for
every `j`, and `valid_targets[j]` the second.

`validAppendStep` is the inner loop body for example `i` of task `j`, and
`validTaskLoop` the whole inner loop for task `j`. -/
def validAppendStep (preds : List (List ℚ)) (targets : List (List (Option ℚ)))
    (j : ℕ) (acc : List ℚ × List ℚ) (i : ℕ) : List ℚ × List ℚ :=
  match (targets.getD i []).getD j none with
  | none => acc
  | some t => (acc.1 ++ [(preds.getD i []).getD j 0], acc.2 ++ [t])

/-- The inner `for i in range(len(preds))` loop of the filtering phase for one
task index `j`; see `sharedValidLists`. -/
def validTaskLoop (preds : List (List ℚ)) (targets : List (List (Option ℚ)))
    (acc : List ℚ × List ℚ) (j : ℕ) : List ℚ × List ℚ :=
  (List.range preds.length).foldl (validAppendStep preds targets j) acc

/-- The complete filtering loop; see the aliasing note on `validAppendStep`. -/
def sharedValidLists (preds : List (List ℚ)) (targets : List (List (Option ℚ)))
    (num_tasks : ℕ) : List ℚ × List ℚ :=
  (List.range num_tasks).foldl (validTaskLoop preds targets) ([], [])

/-- One iteration of the scoring loop of `evaluate_predictions`
(src/molpal/models/mpnn/evaluate.py, lines 43-65), acting on the accumulated
(results, emitted info messages) and the pair `(preds, targets)` the loop
variable holds for the current task:

    if dataset_type == 'classification':
        if all(t == 0 for t in targets) or all(targets):
            info(...); results.append(float('nan')); continue
        if all(p == 0 for p in preds) or all(preds):
            info(...); results.append(float('nan')); continue
    if len(targets) == 0: continue
    results.append(metric_func(targets, preds))

Python truthiness of a float is `≠ 0`, so `all(targets)` is
`∀ t ∈ targets, t ≠ 0`. -/
def scoreStep (dataset_type : String) (metric_func : List ℚ → List ℚ → ℚ)
    (acc : List EvalOut × List String) (pt : List ℚ × List ℚ) :
    List EvalOut × List String :=
  if dataset_type = "classification" ∧
      ((∀ t ∈ pt.2, t = 0) ∨ (∀ t ∈ pt.2, t ≠ 0)) then
    (acc.1 ++ [EvalOut.nan], acc.2 ++ [targetsWarning])
  else if dataset_type = "classification" ∧
      ((∀ p ∈ pt.1, p = 0) ∨ (∀ p ∈ pt.1, p ≠ 0)) then
    (acc.1 ++ [EvalOut.nan], acc.2 ++ [predsWarning])
  else if pt.2 = [] then
    acc
  else
    (acc.1 ++ [EvalOut.score (metric_func pt.2 pt.1)], acc.2)

/-- `evaluate_predictions(preds, targets, num_tasks, metric_func,
dataset_type, logger)` from src/molpal/models/mpnn/evaluate.py.

Returns the pair (returned results list, info messages emitted in order);
the source sends each message to `logger.info` when a logger is configured and
to `print` otherwise.

`if len(preds) == 0: return [float('nan')] * num_tasks` is the first branch.
Otherwise the filtering loop fills the shared lists (`sharedValidLists`,
see the aliasing note there), and the scoring loop runs over
`zip(valid_preds, valid_targets)`, which is `num_tasks` copies of the shared
pair. -/
def evaluate_predictions (preds : List (List ℚ))
    (targets : List (List (Option ℚ))) (num_tasks : ℕ)
    (metric_func : List ℚ → List ℚ → ℚ) (dataset_type : String) :
    List EvalOut × List String :=
  if preds.length = 0 then (List.replicate num_tasks EvalOut.nan, [])
  else
    let shared := sharedValidLists preds targets num_tasks
    let valid_preds := List.replicate num_tasks shared.1
    let valid_targets := List.replicate num_tasks shared.2
    (valid_preds.zip valid_targets).foldl (scoreStep dataset_type metric_func)
      ([], [])

/-- The per-task filtered lists as the spec (and the source's own comment
"valid_preds and valid_targets have shape (num_tasks, data_size)") describes
them: `specTaskPreds j` is the subsequence of `preds[i][j]` over examples `i`
in original order with `targets[i][j]` not missing. -/
def specTaskPreds (preds : List (List ℚ)) (targets : List (List (Option ℚ)))
    (j : ℕ) : List ℚ :=
  ((List.range preds.length).filter
      (fun i => ((targets.getD i []).getD j none).isSome)).map
    (fun i => (preds.getD i []).getD j 0)

/-- Companion to `specTaskPreds`: the subsequence of non-missing
`targets[i][j]` over examples `i` in original order. -/
def specTaskTargets (preds : List (List ℚ)) (targets : List (List (Option ℚ)))
    (j : ℕ) : List ℚ :=
  (List.range preds.length).filterMap (fun i => (targets.getD i []).getD j none)

/-- The slice of chemprop's `MoleculeDataLoader` that `evaluate` uses: an
iterable of batches and a `targets` attribute holding the full target matrix
aligned with iteration order. -/
structure MoleculeDataLoader (Batch : Type) where
  batches : List Batch
  targets : List (List (Option ℚ))

/-- Modelled from the spec: `predict`
(src/molpal/models/mpnn/predict.py is not part of the fragment; only its
caller `evaluate` is).  Per the spec's Evaluation Orchestrator contract it
produces predictions by converting each batch to the model's input
representation (`batch.batch_graph()`, the generator `batch_graphs` inlined
here) and applying the model to each batch in sequence, optionally un-scaling
raw outputs via the rescaling transform; any failure in batch conversion or
model invocation propagates uncaught, which `Except.error` models. -/
def predict {Batch MolGraph : Type}
    (model_fn : MolGraph → Except String (List (List ℚ)))
    (batch_graph : Batch → Except String MolGraph)
    (batches : List Batch) (scaler : Option (ℚ → ℚ)) :
    Except String (List (List ℚ)) :=
  batches.foldlM (fun acc b => do
    let g ← batch_graph b
    let ps ← model_fn g
    pure (acc ++ match scaler with
      | none => ps
      | some f => ps.map (fun row => row.map f))) []

/-- `evaluate(model, data_loader, num_tasks, metric_func, dataset_type,
scaler, logger)` from src/molpal/models/mpnn/evaluate.py: runs `predict` on
the loader's batch graphs, takes targets from `data_loader.targets`, and
returns the result of `evaluate_predictions` unchanged (first component:
results; second: emitted info messages). -/
def evaluate {Batch MolGraph : Type}
    (model_fn : MolGraph → Except String (List (List ℚ)))
    (batch_graph : Batch → Except String MolGraph)
    (data_loader : MoleculeDataLoader Batch) (num_tasks : ℕ)
    (metric_func : List ℚ → List ℚ → ℚ) (dataset_type : String)
    (scaler : Option (ℚ → ℚ)) :
    Except String (List EvalOut × List String) := do
  let preds ← predict model_fn batch_graph data_loader.batches scaler
  pure (evaluate_predictions preds data_loader.targets num_tasks metric_func
    dataset_type)

/-- C2: for every task count, metric function and dataset type, an empty
prediction matrix (zero examples) makes `evaluate_predictions` return exactly
`num_tasks` not-a-number sentinels at once — no filtering runs and no message
is emitted. -/
theorem empty_preds_returns_nan_per_task (targets : List (List (Option ℚ)))
    (num_tasks : ℕ) (metric_func : List ℚ → List ℚ → ℚ)
    (dataset_type : String) :
    evaluate_predictions [] targets num_tasks metric_func dataset_type =
      (List.replicate num_tasks EvalOut.nan, []) := by
  simp [evaluate_predictions]

/-- C1 (counterexample to the per-task filtering claim): on
preds = [[1, 2]], targets = [[1, 1]], num_tasks = 2, the list the source calls
`valid_preds[0]` is the shared list [1, 2] — it contains the task-1 entry
P[0][1] = 2 — while the claimed per-task subsequence for task 0 is [1];
likewise the shared `valid_targets[0]` is [1, 1], not [1]. -/
theorem filtering_aliases_columns_cex :
    (sharedValidLists [[(1 : ℚ), 2]] [[some 1, some 1]] 2).1 = [1, 2] ∧
    (sharedValidLists [[(1 : ℚ), 2]] [[some 1, some 1]] 2).2 = [1, 1] ∧
    specTaskPreds [[(1 : ℚ), 2]] [[some 1, some 1]] 0 = [1] ∧
    specTaskTargets [[(1 : ℚ), 2]] [[some 1, some 1]] 0 = [1] ∧
    (sharedValidLists [[(1 : ℚ), 2]] [[some 1, some 1]] 2).1 ≠
      specTaskPreds [[(1 : ℚ), 2]] [[some 1, some 1]] 0 := by
  refine ⟨by decide, by decide, by decide, by decide, by decide⟩

/-- C3 (counterexample to the skip-empty claim): on preds = [[1, 2]],
targets = [[None, 5]], num_tasks = 2, regression, metric = head of the valid
targets, task 0 has no valid target per the spec's per-task reading, yet the
output is [score 5, score 5]: task 0 contributes an element (scored on task
1's data leaked through the shared list) and the output length equals
num_tasks instead of being strictly shorter. -/
theorem skip_empty_task_not_skipped_cex :
    specTaskTargets [[(1 : ℚ), 2]] [[none, some 5]] 0 = [] ∧
    (evaluate_predictions [[(1 : ℚ), 2]] [[none, some 5]] 2
        (fun ts _ => ts.headD 0) "regression").1 =
      [EvalOut.score 5, EvalOut.score 5] := by
  refine ⟨by decide, by decide⟩

/-- C4 (counterexample at the claim's own input): on preds = [[1, 2]],
targets = [[1, None]], num_tasks = 2, regression, metric = head of the valid
preds (so f [1] [1] = 1), the source returns the two-element list
[score 1, score 1] — task 1 is NOT omitted, it is scored on task 0's shared
data — not the claimed one-element list [f [1] [1]]. -/
theorem concrete_example_not_one_element_cex :
    (evaluate_predictions [[(1 : ℚ), 2]] [[some 1, none]] 2
        (fun _ ps => ps.headD 0) "regression").1 =
      [EvalOut.score 1, EvalOut.score 1] ∧
    (evaluate_predictions [[(1 : ℚ), 2]] [[some 1, none]] 2
        (fun _ ps => ps.headD 0) "regression").1 ≠
      [EvalOut.score 1] := by
  refine ⟨by decide, by decide⟩

/-- C5 (counterexample to the per-task degeneracy guard): classification input
preds = [[0, 1], [1, 0]], targets = [[0, 0], [0, 1]], num_tasks = 2.  Task 0's
valid targets per the spec's per-task reading are [0, 0] — all zero — so the
claim requires a nan sentinel for task 0 and a warning.  The source instead
tests the shared lists ([0, 1, 1, 0] and [0, 0, 0, 1]), which are not
degenerate, so it calls the metric (here: length of the valid-target list) for
every task and emits no warning at all. -/
theorem degeneracy_guard_not_per_task_cex :
    specTaskTargets [[(0 : ℚ), 1], [1, 0]] [[some 0, some 0], [some 0, some 1]]
        0 = [0, 0] ∧
    evaluate_predictions [[(0 : ℚ), 1], [1, 0]]
        [[some 0, some 0], [some 0, some 1]] 2
        (fun ts _ => (ts.length : ℚ)) "classification" =
      ([EvalOut.score 4, EvalOut.score 4], []) := by
  refine ⟨by decide, by decide⟩

/-- C6: the factory `model` maps "rf", "gp", "nn", "mpn" to an instance of the
corresponding family (random forest, Gaussian process, feed-forward NN,
message-passing NN) and raises the NotImplementedError naming the offending
key for every other string, returning no instance at all. -/
theorem model_factory_dispatch (s : String) (c : Option String)
    (h : s ∉ (["rf", "gp", "nn", "mpn"] : List String)) :
    model s c = Except.error ("Unrecognized model: \"" ++ s ++ "\"") ∧
    (∀ inst, model s c ≠ Except.ok inst) ∧
    model "rf" c = Except.ok ModelInstance.RFModel ∧
    model "gp" c = Except.ok ModelInstance.GPModel ∧
    model "nn" none = Except.ok (ModelInstance.NNModel none) ∧
    model "mpn" none = Except.ok (ModelInstance.MPNModel none) := by
  have h1 : s ≠ "rf" := by intro e; exact h (by simp [e])
  have h2 : s ≠ "gp" := by intro e; exact h (by simp [e])
  have h3 : s ≠ "nn" := by intro e; exact h (by simp [e])
  have h4 : s ≠ "mpn" := by intro e; exact h (by simp [e])
  refine ⟨by simp [model, h1, h2, h3, h4], ?_, by rfl, by rfl, by rfl, by rfl⟩
  intro inst hok
  simp [model, h1, h2, h3, h4] at hok

/-- Witness for C6 at the concrete offending key "bogus". -/
theorem model_factory_dispatch_witness :
    ("bogus" : String) ∉ (["rf", "gp", "nn", "mpn"] : List String) ∧
    model "bogus" none = Except.error ("Unrecognized model: \"bogus\"") :=
  ⟨by decide, (model_factory_dispatch "bogus" none (by decide)).1⟩

/-- C7: `nn`/`mpn` conf_method dispatch — None and "none" give the base
variant, "dropout" the dropout variant, "twooutput" and "mve" the two-output
variant, "ensemble" the ensemble variant for nn only; every conf_method string
outside the respective dict (including "ensemble" for mpn) raises the
unrecognized-configuration error naming the offending conf_method. -/
theorem nn_mpn_conf_dispatch (c : String)
    (hn : c ∉ (["dropout", "ensemble", "twooutput", "mve", "none"] :
      List String))
    (hm : c ∉ (["dropout", "twooutput", "mve", "none"] : List String)) :
    nn (some c) =
      Except.error ("Unrecognized NN confidence method: \"" ++ c ++ "\"") ∧
    mpn (some c) =
      Except.error ("Unrecognized MPN confidence method: \"" ++ c ++ "\"") ∧
    nn none = Except.ok (ModelInstance.NNModel none) ∧
    nn (some "none") = Except.ok (ModelInstance.NNModel (some "none")) ∧
    nn (some "dropout") =
      Except.ok (ModelInstance.NNDropoutModel (some "dropout")) ∧
    nn (some "ensemble") =
      Except.ok (ModelInstance.NNEnsembleModel (some "ensemble")) ∧
    nn (some "twooutput") =
      Except.ok (ModelInstance.NNTwoOutputModel (some "twooutput")) ∧
    nn (some "mve") = Except.ok (ModelInstance.NNTwoOutputModel (some "mve")) ∧
    mpn none = Except.ok (ModelInstance.MPNModel none) ∧
    mpn (some "none") = Except.ok (ModelInstance.MPNModel (some "none")) ∧
    mpn (some "dropout") =
      Except.ok (ModelInstance.MPNDropoutModel (some "dropout")) ∧
    mpn (some "twooutput") =
      Except.ok (ModelInstance.MPNTwoOutputModel (some "twooutput")) ∧
    mpn (some "mve") =
      Except.ok (ModelInstance.MPNTwoOutputModel (some "mve")) ∧
    mpn (some "ensemble") =
      Except.error ("Unrecognized MPN confidence method: \"ensemble\"") := by
  have e1 : (c == "dropout") = false := by
    refine beq_eq_false_iff_ne.mpr (fun e => hn ?_); simp [e]
  have e2 : (c == "ensemble") = false := by
    refine beq_eq_false_iff_ne.mpr (fun e => hn ?_); simp [e]
  have e3 : (c == "twooutput") = false := by
    refine beq_eq_false_iff_ne.mpr (fun e => hn ?_); simp [e]
  have e4 : (c == "mve") = false := by
    refine beq_eq_false_iff_ne.mpr (fun e => hn ?_); simp [e]
  have e5 : (c == "none") = false := by
    refine beq_eq_false_iff_ne.mpr (fun e => hn ?_); simp [e]
  have f1 : (c == "dropout") = false := by
    refine beq_eq_false_iff_ne.mpr (fun e => hm ?_); simp [e]
  have f3 : (c == "twooutput") = false := by
    refine beq_eq_false_iff_ne.mpr (fun e => hm ?_); simp [e]
  have f4 : (c == "mve") = false := by
    refine beq_eq_false_iff_ne.mpr (fun e => hm ?_); simp [e]
  have f5 : (c == "none") = false := by
    refine beq_eq_false_iff_ne.mpr (fun e => hm ?_); simp [e]
  refine ⟨?_, ?_, by rfl, by rfl, by rfl, by rfl, by rfl, by rfl, by rfl,
    by rfl, by rfl, by rfl, by rfl, by rfl⟩
  · simp [nn, nnConfClasses, List.lookup, e1, e2, e3, e4, e5]
  · simp [mpn, mpnConfClasses, List.lookup, f1, f3, f4, f5]

/-- Witness for C7 at the concrete offending conf_method "bogus". -/
theorem nn_mpn_conf_dispatch_witness :
    ("bogus" : String) ∉
      (["dropout", "ensemble", "twooutput", "mve", "none"] : List String) ∧
    nn (some "bogus") =
      Except.error ("Unrecognized NN confidence method: \"bogus\"") :=
  ⟨by decide, (nn_mpn_conf_dispatch "bogus" (by decide) (by decide)).1⟩

theorem flatten_replicate_singleton {α : Type} (n : ℕ) (a : α) :
    (List.replicate n [a]).flatten = List.replicate n a := by
  induction n with
  | zero => simp
  | succ n ih => simp [List.replicate_succ, ih]

theorem flatten_replicate_nil {α : Type} (n : ℕ) :
    (List.replicate n ([] : List α)).flatten = [] := by
  induction n with
  | zero => simp
  | succ n ih => simp [List.replicate_succ, ih]

theorem foldl_validAppendStep (preds : List (List ℚ))
    (targets : List (List (Option ℚ))) (j : ℕ) (l : List ℕ) :
    ∀ acc : List ℚ × List ℚ,
      l.foldl (validAppendStep preds targets j) acc =
        (acc.1 ++ (l.filter
            (fun i => ((targets.getD i []).getD j none).isSome)).map
            (fun i => (preds.getD i []).getD j 0),
         acc.2 ++ l.filterMap (fun i => (targets.getD i []).getD j none)) := by
  induction l with
  | nil => intro acc; simp
  | cons i l ih =>
      intro acc
      rcases h : (targets.getD i []).getD j none with _ | t <;>
        simp only [List.getD_eq_getElem?_getD] at h <;>
        simp [List.foldl_cons, validAppendStep, List.getD_eq_getElem?_getD, h,
          ih, List.filter_cons, List.filterMap_cons]

theorem validTaskLoop_spec (preds : List (List ℚ))
    (targets : List (List (Option ℚ))) (acc : List ℚ × List ℚ) (j : ℕ) :
    validTaskLoop preds targets acc j =
      (acc.1 ++ specTaskPreds preds targets j,
       acc.2 ++ specTaskTargets preds targets j) := by
  rw [validTaskLoop, foldl_validAppendStep]
  rfl

theorem foldl_validTaskLoop (preds : List (List ℚ))
    (targets : List (List (Option ℚ))) (L : List ℕ) :
    ∀ acc : List ℚ × List ℚ,
      L.foldl (validTaskLoop preds targets) acc =
        (acc.1 ++ (L.map (specTaskPreds preds targets)).flatten,
         acc.2 ++ (L.map (specTaskTargets preds targets)).flatten) := by
  induction L with
  | nil => intro acc; simp
  | cons j L ih =>
      intro acc
      simp [List.foldl_cons, validTaskLoop_spec, ih]

/-- The shared pair of lists built by the filtering loop is, in each
component, the concatenation over task indices j = 0, ..., num_tasks - 1 (in
order) of the per-task filtered column j. -/
theorem sharedValidLists_eq_concat (preds : List (List ℚ))
    (targets : List (List (Option ℚ))) (num_tasks : ℕ) :
    sharedValidLists preds targets num_tasks =
      (((List.range num_tasks).map (specTaskPreds preds targets)).flatten,
       ((List.range num_tasks).map (specTaskTargets preds targets)).flatten) := by
  rw [sharedValidLists, foldl_validTaskLoop]
  rfl

theorem scoreStep_append_form (dataset_type : String)
    (metric_func : List ℚ → List ℚ → ℚ) (pt : List ℚ × List ℚ)
    (acc : List EvalOut × List String) :
    scoreStep dataset_type metric_func acc pt =
      (acc.1 ++ (scoreStep dataset_type metric_func ([], []) pt).1,
       acc.2 ++ (scoreStep dataset_type metric_func ([], []) pt).2) := by
  unfold scoreStep
  split_ifs <;> simp

theorem foldl_scoreStep_replicate (dataset_type : String)
    (metric_func : List ℚ → List ℚ → ℚ) (pt : List ℚ × List ℚ) (n : ℕ) :
    ∀ acc : List EvalOut × List String,
      List.foldl (scoreStep dataset_type metric_func) acc
          (List.replicate n pt) =
        (acc.1 ++
          (List.replicate n
            (scoreStep dataset_type metric_func ([], []) pt).1).flatten,
         acc.2 ++
          (List.replicate n
            (scoreStep dataset_type metric_func ([], []) pt).2).flatten) := by
  induction n with
  | zero => intro acc; simp
  | succ n ih =>
      intro acc
      rw [List.replicate_succ, List.foldl_cons, ih, scoreStep_append_form]
      simp [List.replicate_succ]

theorem evaluate_predictions_nonempty (preds : List (List ℚ))
    (targets : List (List (Option ℚ))) (num_tasks : ℕ)
    (metric_func : List ℚ → List ℚ → ℚ) (dataset_type : String)
    (hE : preds ≠ []) :
    evaluate_predictions preds targets num_tasks metric_func dataset_type =
      List.foldl (scoreStep dataset_type metric_func) ([], [])
        (List.replicate num_tasks
          (sharedValidLists preds targets num_tasks)) := by
  have h0 : ¬ preds.length = 0 := by simp [List.length_eq_zero, hE]
  simp only [evaluate_predictions, h0, if_false]
  simp [List.zip_replicate]

theorem entry_none_of_all_none (targets : List (List (Option ℚ)))
    (hmiss : ∀ row ∈ targets, ∀ x ∈ row, x = none) (i j : ℕ) :
    (targets.getD i []).getD j none = none := by
  by_cases hi : i < targets.length
  · by_cases hj : j < (targets.getD i []).length
    · rw [List.getD_eq_getElem _ none hj]
      refine hmiss _ ?_ _ (List.getElem_mem hj)
      rw [List.getD_eq_getElem targets [] hi]
      exact List.getElem_mem hi
    · exact List.getD_eq_default _ none (le_of_not_lt hj)
  · rw [List.getD_eq_default _ [] (le_of_not_lt hi)]
    simp

theorem sharedValidLists_nil_of_all_none (preds : List (List ℚ))
    (targets : List (List (Option ℚ))) (num_tasks : ℕ)
    (hmiss : ∀ row ∈ targets, ∀ x ∈ row, x = none) :
    sharedValidLists preds targets num_tasks = ([], []) := by
  rw [sharedValidLists_eq_concat]
  have hentry : ∀ i j, (targets.getD i []).getD j none = none :=
    entry_none_of_all_none targets hmiss
  simp only [List.getD_eq_getElem?_getD] at hentry
  have hT : ∀ j, specTaskTargets preds targets j = [] := by
    intro j
    simp [specTaskTargets, List.filterMap_eq_nil_iff, hentry]
  have hP : ∀ j, specTaskPreds preds targets j = [] := by
    intro j
    simp [specTaskPreds, List.filter_eq_nil_iff, hentry]
  rw [Prod.ext_iff]
  constructor
  · rw [List.flatten_eq_nil_iff]
    intro x hx
    rcases List.mem_map.mp hx with ⟨j, _, rfl⟩
    exact hP j
  · rw [List.flatten_eq_nil_iff]
    intro x hx
    rcases List.mem_map.mp hx with ⟨j, _, rfl⟩
    exact hT j

/-- C9: for a non-empty classification prediction matrix whose target entries
are all missing, the shared valid-target list is empty, the all-zeros
degeneracy test is vacuously true on it and runs before the empty-list skip,
so every task records a not-a-number sentinel: the result is exactly
`num_tasks` sentinels, never an empty list. -/
theorem classification_all_missing_gives_nans (preds : List (List ℚ))
    (targets : List (List (Option ℚ))) (num_tasks : ℕ)
    (metric_func : List ℚ → List ℚ → ℚ)
    (hE : preds ≠ []) (hmiss : ∀ row ∈ targets, ∀ x ∈ row, x = none) :
    (evaluate_predictions preds targets num_tasks metric_func
        "classification").1 = List.replicate num_tasks EvalOut.nan := by
  rw [evaluate_predictions_nonempty _ _ _ _ _ hE,
    sharedValidLists_nil_of_all_none _ _ _ hmiss,
    foldl_scoreStep_replicate]
  have hstep : scoreStep "classification" metric_func ([], [])
      (([] : List ℚ), ([] : List ℚ)) = ([EvalOut.nan], [targetsWarning]) := by
    simp [scoreStep]
  rw [hstep]
  simp [flatten_replicate_singleton]

/-- Witness for C9: preds = [[1, 2]], targets = [[None, None]], num_tasks = 2,
classification gives exactly two sentinels. -/
theorem classification_all_missing_gives_nans_witness :
    (evaluate_predictions [[(1 : ℚ), 2]] [[none, none]] 2
        (fun ts _ => ts.headD 0) "classification").1 =
      List.replicate 2 EvalOut.nan :=
  classification_all_missing_gives_nans [[(1 : ℚ), 2]] [[none, none]] 2
    (fun ts _ => ts.headD 0) (by decide) (by decide)

/-- C10: the aliasing of `[[]] * num_tasks` makes every `valid_preds[j]` the
single shared list, which is the concatenation over task indices k (in order)
of the non-missing column-k predictions (likewise `valid_targets[j]`), and
consequently for a non-classification (e.g. regression) dataset type on a
non-empty prediction matrix the result length is `num_tasks` as soon as one
in-range target entry is non-missing and 0 when all are missing — never
strictly in between. -/
theorem shared_lists_concat_and_length_dichotomy (preds : List (List ℚ))
    (targets : List (List (Option ℚ))) (num_tasks : ℕ)
    (metric_func : List ℚ → List ℚ → ℚ) (dataset_type : String)
    (hreg : dataset_type ≠ "classification") (hE : preds ≠ []) :
    sharedValidLists preds targets num_tasks =
      (((List.range num_tasks).map (specTaskPreds preds targets)).flatten,
       ((List.range num_tasks).map (specTaskTargets preds targets)).flatten) ∧
    ((∀ row ∈ targets, ∀ x ∈ row, x = none) →
      (evaluate_predictions preds targets num_tasks metric_func
          dataset_type).1 = []) ∧
    ((∃ j < num_tasks, specTaskTargets preds targets j ≠ []) →
      (evaluate_predictions preds targets num_tasks metric_func
          dataset_type).1.length = num_tasks) := by
  refine ⟨sharedValidLists_eq_concat preds targets num_tasks, ?_, ?_⟩
  · intro hmiss
    rw [evaluate_predictions_nonempty _ _ _ _ _ hE,
      sharedValidLists_nil_of_all_none _ _ _ hmiss,
      foldl_scoreStep_replicate]
    have hstep : scoreStep dataset_type metric_func ([], [])
        (([] : List ℚ), ([] : List ℚ)) = ([], []) := by
      simp [scoreStep, hreg]
    rw [hstep]
    simp [flatten_replicate_nil]
  · rintro ⟨j, hj, hne⟩
    have hst : (sharedValidLists preds targets num_tasks).2 ≠ [] := by
      rw [sharedValidLists_eq_concat]
      intro hnil
      exact hne (List.flatten_eq_nil_iff.mp hnil _
        (List.mem_map.mpr ⟨j, List.mem_range.mpr hj, rfl⟩))
    rw [evaluate_predictions_nonempty _ _ _ _ _ hE,
      foldl_scoreStep_replicate]
    have hstep : scoreStep dataset_type metric_func ([], [])
        (sharedValidLists preds targets num_tasks) =
        ([EvalOut.score
            (metric_func (sharedValidLists preds targets num_tasks).2
              (sharedValidLists preds targets num_tasks).1)], []) := by
      simp [scoreStep, hreg, hst]
    rw [hstep]
    simp [flatten_replicate_singleton]

/-- Witness for C10: preds = [[1]], targets = [[1]], num_tasks = 1,
regression: task 0 has a valid target, so the result has length 1. -/
theorem shared_lists_concat_and_length_dichotomy_witness :
    specTaskTargets [[(1 : ℚ)]] [[some 1]] 0 ≠ [] ∧
    (evaluate_predictions [[(1 : ℚ)]] [[some 1]] 1 (fun ts _ => ts.headD 0)
        "regression").1.length = 1 :=
  ⟨by decide,
    (shared_lists_concat_and_length_dichotomy [[(1 : ℚ)]] [[some 1]] 1
        (fun ts _ => ts.headD 0) "regression" (by decide) (by decide)).2.2
      ⟨0, by decide, by decide⟩⟩

/-- C8: `evaluate` returns exactly `evaluate_predictions` applied to the
predictions `predict` produced from the loader's batches in sequence and to
the loader's `targets` attribute — passed through unchanged — and any
exception raised while converting batches or invoking the model propagates to
the caller. -/
theorem evaluate_delegates_to_evaluate_predictions {Batch MolGraph : Type}
    (model_fn : MolGraph → Except String (List (List ℚ)))
    (batch_graph : Batch → Except String MolGraph)
    (data_loader : MoleculeDataLoader Batch) (num_tasks : ℕ)
    (metric_func : List ℚ → List ℚ → ℚ) (dataset_type : String)
    (scaler : Option (ℚ → ℚ)) (P : List (List ℚ)) (e : String) :
    (predict model_fn batch_graph data_loader.batches scaler = Except.ok P →
      evaluate model_fn batch_graph data_loader num_tasks metric_func
          dataset_type scaler =
        Except.ok (evaluate_predictions P data_loader.targets num_tasks
          metric_func dataset_type)) ∧
    (predict model_fn batch_graph data_loader.batches scaler =
        Except.error e →
      evaluate model_fn batch_graph data_loader num_tasks metric_func
          dataset_type scaler = Except.error e) := by
  constructor
  · intro h
    simp [evaluate, h]
  · intro h
    simp [evaluate, h]

/-- Witness for C8 on a one-batch loader whose model predicts [[1]]. -/
theorem evaluate_delegates_to_evaluate_predictions_witness :
    predict (fun (_ : Unit) => Except.ok [[(1 : ℚ)]])
        (fun (_ : Unit) => Except.ok ()) [()] none = Except.ok [[(1 : ℚ)]] ∧
    evaluate (fun (_ : Unit) => Except.ok [[(1 : ℚ)]])
        (fun (_ : Unit) => Except.ok ())
        (MoleculeDataLoader.mk [()] [[some 1]]) 1 (fun ts _ => ts.headD 0)
        "regression" none =
      Except.ok (evaluate_predictions [[(1 : ℚ)]] [[some 1]] 1
        (fun ts _ => ts.headD 0) "regression") :=
  ⟨by rfl,
    (evaluate_delegates_to_evaluate_predictions
        (fun (_ : Unit) => Except.ok [[(1 : ℚ)]])
        (fun (_ : Unit) => Except.ok ())
        (MoleculeDataLoader.mk [()] [[some 1]]) 1 (fun ts _ => ts.headD 0)
        "regression" none [[(1 : ℚ)]] "error").1 (by rfl)⟩

end Molpal
